import Mathlib

/-!
# Verification of the smartyplants analysis-and-advisory pipeline

Shallow embedding, in Lean 4, of the deterministic core of the
`smartyplants` repository:

* `backend/models/plant_disease_detector.py` — feature extraction and the
  rule-based disease classifier (`PlantDiseaseDetector`);
* `backend/services/plant_analyzer.py` — severity estimation
  (`_analyze_severity`);
* `backend/services/logic_engine.py` — disease-category classification and
  risk assessment (`LogicEngine`);
* `backend/services/gemini_analyzer.py` — the orchestrator's merge/backfill
  step (`_fill_defaults`, `_validate_result`) and resilient JSON-shaped
  response cleaning (`_parse_json`).

Python floats are modelled as exact rationals (`ℚ`); Python strings are
modelled either as Lean `String`s or, where character-level lowercasing and
substring search matter, as lists of Unicode code points (`List ℕ`).
Python dict/list/str/None values are modelled by the inductive `PyVal`
with Python truthiness.
-/

namespace SmartyPlants

/-! ## Python string primitives

`backend/services/logic_engine.py` and `_parse_json` work on strings via
`str.lower`, the `in` substring operator, `str.strip`, `str.startswith`
and `str.endswith`.  Strings are modelled as lists of code points. -/

/-- A Python string as a list of Unicode code points. -/
abbrev PyStr := List ℕ

/-- Code points of a Lean string literal (used to transcribe the Python
string literals of the source). -/
def cps (s : String) : PyStr := s.toList.map Char.toNat

/-- ASCII lowercasing of one code point (`str.lower` restricted to the
ASCII range; every string literal scanned by the source is ASCII). -/
def lowerCp (n : ℕ) : ℕ := if 65 ≤ n ∧ n ≤ 90 then n + 32 else n

/-- Python `s.lower()`. -/
def pyLower (s : PyStr) : PyStr := s.map lowerCp

/-- Whether `p` is an initial segment of `s` (helper for the substring test). -/
def startSeg : PyStr → PyStr → Bool
  | [], _ => true
  | _ :: _, [] => false
  | a :: p, b :: s => a == b && startSeg p s

/-- Python `p in s` (substring containment). -/
def pyIn : PyStr → PyStr → Bool
  | p, [] => startSeg p []
  | p, s@(_ :: t) => startSeg p s || pyIn p t

/-- Python whitespace for `str.strip` (ASCII whitespace class). -/
def isSpaceCp (n : ℕ) : Bool := n == 9 || n == 10 || n == 11 || n == 12 || n == 13 || n == 32

/-- Python `s.strip()`. -/
def pyStrip (s : PyStr) : PyStr :=
  ((s.dropWhile isSpaceCp).reverse.dropWhile isSpaceCp).reverse

/-- Python `s.startswith(p)`. -/
def pyStartsWith (s p : PyStr) : Bool := startSeg p s

/-- Python `s.endswith(p)`. -/
def pyEndsWith (s p : PyStr) : Bool := startSeg p.reverse s.reverse

/-- Python `max(a, b)` on numbers (kernel-reducible `if`). -/
def pmax (a b : ℚ) : ℚ := if a ≤ b then b else a

/-- Python `min(a, b)` on numbers (kernel-reducible `if`). -/
def pmin (a b : ℚ) : ℚ := if a ≤ b then a else b

/-- Python `abs`/`np.abs` (kernel-reducible `if`). -/
def pabs (a : ℚ) : ℚ := if a < 0 then -a else a

/-- Python `min(a, b)` on integers. -/
def pminZ (a b : ℤ) : ℤ := if a ≤ b then a else b

/-! ## `PlantDiseaseDetector` (backend/models/plant_disease_detector.py)

The image matrix is an H×W grid of RGB pixels with rational channel
values.  `np.std(image_array)` is a square root and is irrational for
almost all matrices, so it cannot live in `ℚ`; the two features derived
from it (`contrast` and `damaged_pixels_ratio`) are therefore
parametrised by the value `std = np.std(image_array)`.  No theorem below
depends on that value, and in every concrete witness the matrix is
constant so that `std = 0` exactly. -/

/-- One RGB pixel (channel order `[:, :, 0]`, `[:, :, 1]`, `[:, :, 2]`). -/
abbrev Pixel := ℚ × ℚ × ℚ

/-- A decoded H×W×3 image matrix. -/
abbrev Image := List (List Pixel)

/-- NumPy `image_array.shape[0]`. -/
def imgRows (img : Image) : ℕ := img.length

/-- NumPy `image_array.shape[1]` (the matrices produced by NumPy are
rectangular; the first row's width is the shared width). -/
def imgCols (img : Image) : ℕ := (img.headD []).length

/-- NumPy `image_array.size` — the total number of scalar entries. -/
def imgSize (img : Image) : ℕ := 3 * (img.map List.length).sum

/-- Sum of all entries of a 2-D matrix. -/
def matSum (m : List (List ℚ)) : ℚ := (m.map List.sum).sum

/-- Number of entries of a 2-D matrix. -/
def matCount (m : List (List ℚ)) : ℕ := (m.map List.length).sum

/-- Python `np.mean` of a 2-D matrix (division by zero is `ℚ`'s `x / 0 = 0`;
every use in the source is guarded by a nonzero size). -/
def matMean (m : List (List ℚ)) : ℚ := matSum m / (matCount m : ℚ)

/-- Python `np.mean(image_array, axis=2)` — the unweighted grayscale reduction. -/
def grayOf (img : Image) : List (List ℚ) :=
  img.map (fun row => row.map (fun p => (p.1 + p.2.1 + p.2.2) / 3))

/-- One colour channel of the image as a 2-D matrix. -/
def channel (f : Pixel → ℚ) (img : Image) : List (List ℚ) :=
  img.map (fun row => row.map f)

/-- Python `np.abs(np.diff(m, axis=0))` — absolute first differences down the rows. -/
def absDiffRows (m : List (List ℚ)) : List (List ℚ) :=
  List.zipWith (fun r1 r2 => List.zipWith (fun a b => pabs (b - a)) r1 r2) m m.tail

/-- Python `np.abs(np.diff(m, axis=1))` — absolute first differences along each row. -/
def absDiffCols (m : List (List ℚ)) : List (List ℚ) :=
  m.map (fun r => List.zipWith (fun a b => pabs (b - a)) r r.tail)

/-- Embedding of `_calculate_greenness` (source lines 146–158): mean green channel over
the sum of mean red and mean blue channels plus `1e-5`. -/
def calculate_greenness (img : Image) : ℚ :=
  matMean (channel (fun p => p.2.1) img) /
    (matMean (channel (fun p => p.1) img) + matMean (channel (fun p => p.2.2) img) + 1 / 100000)

/-- Embedding of `_calculate_edge_density` (source lines 160–169): returns `0.0` when the
grayscale matrix has fewer than 2 rows or fewer than 2 columns, otherwise
the mean of the mean absolute row- and column-differences. -/
def calculate_edge_density (gray : List (List ℚ)) : ℚ :=
  if gray.length < 2 ∨ (gray.headD []).length < 2 then 0
  else (matMean (absDiffRows gray) + matMean (absDiffCols gray)) / 2

/-- The feature dictionary built by `_extract_features` (source lines
119–144).  `std` stands for `np.std(image_array)`. -/
structure Features where
  color_variance : ℚ
  brightness : ℚ
  contrast : ℚ
  greenness : ℚ
  edge_density : ℚ
  damaged_pixels_ratio : ℚ
deriving DecidableEq

/-- All scalar entries of the image flattened (for `np.var`). -/
def allEntries (img : Image) : List ℚ :=
  (img.map (fun row => row.flatMap (fun p => [p.1, p.2.1, p.2.2]))).flatten

/-- Python `np.var(image_array)`: mean squared deviation from the mean. -/
def imgVariance (img : Image) : ℚ :=
  let l := allEntries img
  let μ := l.sum / (l.length : ℚ)
  (l.map (fun x => (x - μ) ^ 2)).sum / (l.length : ℚ)

/-- Embedding of `_estimate_damage` (source lines 171–181): `min(std / 255, 1.0)` where
`std = np.std(image_array)` (passed in as `std`); `0.0` for an empty matrix. -/
def estimate_damage (img : Image) (std : ℚ) : ℚ :=
  if imgSize img = 0 then 0 else pmin (std / 255) 1

/-- Embedding of `_extract_features` on a 3-channel matrix (source lines 119–144),
with `std = np.std(image_array)` supplied as a parameter. -/
def extract_features (img : Image) (std : ℚ) : Features where
  color_variance := imgVariance img
  brightness := matMean (grayOf img)
  contrast := std
  greenness := calculate_greenness img
  edge_density := calculate_edge_density (grayOf img)
  damaged_pixels_ratio := estimate_damage img std

/-- Static metadata of the fixed disease catalogue `DISEASE_DATABASE`
(source lines 17–58): severity tier, description, common causes. -/
def DISEASE_DATABASE : String → Option (String × String × List String)
  | "healthy" => some ("none", "Plant appears healthy with no visible signs of disease", [])
  | "leaf_spot" => some ("moderate", "Circular or irregular brown/black spots on leaves",
      ["Fungal infection", "Bacterial infection", "Poor air circulation"])
  | "powdery_mildew" => some ("moderate", "White powdery coating on leaves and stems",
      ["Fungal infection", "High humidity", "Poor air flow"])
  | "rust" => some ("moderate", "Rust-colored pustules on leaf underside",
      ["Fungal infection", "High humidity", "Wet conditions"])
  | "blight" => some ("severe", "Large dark patches on leaves causing rapid leaf death",
      ["Fungal infection", "Bacterial infection", "Wet weather"])
  | "yellowing" => some ("mild", "Leaves turning yellow, often starting from older leaves",
      ["Nutrient deficiency", "Poor drainage", "Overwatering"])
  | "wilting" => some ("severe", "Plants drooping and losing turgor despite moisture",
      ["Underwatering", "Root rot", "Wilt diseases"])
  | "pest_damage" => some ("moderate", "Holes, discoloration, or abnormal leaf damage",
      ["Insect infestation", "Mites", "Aphids"])
  | _ => none

/-- The raw (pre-normalization) per-disease scores of
`_calculate_disease_scores` (source lines 214–245), in the dict's
insertion order, as closed-form functions of `greenness`, `edge_density`,
`damaged_pixels_ratio` and `brightness`. -/
def rawScores (g e d b : ℚ) : List (String × ℚ) :=
  [("healthy", pmax 0 (pmin g 1 * (1 - e * 0.5))),
   ("leaf_spot", pmax 0 ((1 - g) * 0.3 + e * 0.5 + d * 0.2)),
   ("powdery_mildew", pmax 0 ((1 - g) * 0.4 + e * 0.6)),
   ("rust", pmax 0 ((1 - g) * 0.35 + e * 0.45 + d * 0.2)),
   ("blight", pmax 0 ((1 - g) * 0.7 + d * 0.6)),
   ("yellowing", pmax 0 ((1 - g) * 0.5 * (1 - e))),
   ("wilting", pmax 0 (pabs (b - 128) / 128 * 0.4)),
   ("pest_damage", pmax 0 (e * 0.7 + d * 0.3))]

/-- Python `total = sum(scores.values())` of `_calculate_disease_scores`. -/
def rawTotal (g e d b : ℚ) : ℚ := ((rawScores g e d b).map Prod.snd).sum

/-- Embedding of `_calculate_disease_scores` (source lines 214–252): the raw scores,
normalized by their sum when the sum is positive, left as-is otherwise. -/
def calculate_disease_scores (g e d b : ℚ) : List (String × ℚ) :=
  if 0 < rawTotal g e d b then
    (rawScores g e d b).map (fun p => (p.1, p.2 / rawTotal g e d b))
  else rawScores g e d b

/-- One entry of the prediction list built by `_classify_disease`
(source lines 202–210). -/
structure Prediction where
  disease : String
  confidence : ℚ
  severity : String
  description : String
  common_causes : List String
deriving DecidableEq

/-- The prediction record for one catalogue entry, with the
`disease_info.get` fallbacks of source lines 203–210. -/
def mkPrediction (name : String) (conf : ℚ) : Prediction :=
  match DISEASE_DATABASE name with
  | some (sev, desc, causes) => ⟨name, conf, sev, desc, causes⟩
  | none => ⟨name, conf, "unknown", "", []⟩

/-- The descending-score ordering used by
`sorted(scores.items(), key=lambda x: x[1], reverse=True)`. -/
def scoreGe (a b : String × ℚ) : Prop := b.2 ≤ a.2

instance : DecidableRel scoreGe := fun a b => inferInstanceAs (Decidable (b.2 ≤ a.2))

instance : IsTotal (String × ℚ) scoreGe := ⟨fun a b => le_total b.2 a.2⟩

instance : IsTrans (String × ℚ) scoreGe := ⟨fun _ _ _ h1 h2 => le_trans h2 h1⟩

/-- The score list sorted descending by confidence (source line 200;
insertion sort is stable, like Python's `sorted`). -/
def sortedDiseases (g e d b : ℚ) : List (String × ℚ) :=
  (calculate_disease_scores g e d b).insertionSort scoreGe

/-- Embedding of `_classify_disease` of the detector (source lines 183–212): the top 5
sorted scores, each dressed up with catalogue metadata. -/
def classify_predictions (g e d b : ℚ) : List Prediction :=
  ((sortedDiseases g e d b).take 5).map (fun p => mkPrediction p.1 p.2)

/-- The confidence-threshold filtering step of `detect_disease`
(source lines 100–107): keep predictions at or above the threshold, and
if that empties the list keep `[predictions[0]]`. -/
def filter_predictions (preds : List Prediction) (t : ℚ) : List Prediction :=
  if (preds.filter (fun p => decide (t ≤ p.confidence))).isEmpty then preds.take 1
  else preds.filter (fun p => decide (t ≤ p.confidence))

/-- The result dict of `detect_disease` restricted to the fields the
claims are about. -/
structure DetectResult where
  success : Bool
  predictions : List Prediction
  error : Option String
deriving DecidableEq

/-- Embedding of `detect_disease` (source lines 75–117): the error response for a
`None`/zero-size matrix, otherwise feature extraction, classification and
threshold filtering (no exception can be raised by the embedded
arithmetic, so the `except` branch is unreachable).
`std = np.std(image_array)` is supplied as a parameter. -/
def detect_disease (img : Image) (std : ℚ) (confidence_threshold : ℚ) : DetectResult :=
  if imgSize img = 0 then ⟨false, [], some "Invalid image provided"⟩
  else
    ⟨true,
     filter_predictions
       (classify_predictions (extract_features img std).greenness
         (extract_features img std).edge_density
         (extract_features img std).damaged_pixels_ratio
         (extract_features img std).brightness)
       confidence_threshold,
     none⟩

/-! ## `_analyze_severity` (backend/services/plant_analyzer.py, lines 105–146)

Only the severity computation proper is embedded; `base_severity` and the
rounded percentage fields are carried through unchanged and do not affect
the tier. -/

/-- The severity tier, ordered `mild < moderate < severe`. -/
inductive SeverityTier where
  | mild
  | moderate
  | severe
deriving DecidableEq

/-- Numeric rank of a tier in the order `mild < moderate < severe`. -/
def SeverityTier.rank : SeverityTier → ℕ
  | .mild => 0
  | .moderate => 1
  | .severe => 2

/-- The tier decision of `_analyze_severity` (source lines 128–136):
`severe` if `damage_ratio > 0.6 or affected_area > 0.7`, else `moderate`
if `damage_ratio > 0.3 or affected_area > 0.4`, else `mild`. -/
def severity_level (damage_ratio affected_area : ℚ) : SeverityTier :=
  if 0.6 < damage_ratio ∨ 0.7 < affected_area then .severe
  else if 0.3 < damage_ratio ∨ 0.4 < affected_area then .moderate
  else .mild

/-- The progression label, 1:1 with the tier (source lines 128–136). -/
def progression_stage (damage_ratio affected_area : ℚ) : String :=
  match severity_level damage_ratio affected_area with
  | .severe => "advancing"
  | .moderate => "progressing"
  | .mild => "early_stage"

/-- Embedding of `confidence_in_severity` (source line 145). -/
def confidence_in_severity (damage_ratio affected_area : ℚ) : ℚ :=
  pmin 0.95 (pmax damage_ratio affected_area)

/-! ## `LogicEngine` (backend/services/logic_engine.py)

Diagnosis and severity texts are code point lists (`PyStr`), because the
keyword checks are Python `in` substring tests on lowercased text. -/

/-- Embedding of `FUNGAL_DISEASES` (source lines 18–27). -/
def FUNGAL_DISEASES : List PyStr :=
  [cps "powdery mildew", cps "leaf spot", cps "rust", cps "blight",
   cps "anthracnose", cps "damping off", cps "root rot", cps "mildew"]

/-- Embedding of `BACTERIAL_DISEASES` (source lines 29–35). -/
def BACTERIAL_DISEASES : List PyStr :=
  [cps "bacterial leaf spot", cps "bacterial blight", cps "crown gall",
   cps "bacterial wilt", cps "fire blight"]

/-- Embedding of `VIRAL_DISEASES` (source lines 37–42). -/
def VIRAL_DISEASES : List PyStr :=
  [cps "mosaic virus", cps "leaf curl virus", cps "viral infection", cps "virus disease"]

/-- Embedding of `ENVIRONMENTAL_STRESSES` (source lines 44–57). -/
def ENVIRONMENTAL_STRESSES : List PyStr :=
  [cps "water stress", cps "drought stress", cps "overwatering",
   cps "nutrient deficiency", cps "nitrogen deficiency", cps "phosphorus deficiency",
   cps "potassium deficiency", cps "chlorosis", cps "yellowing", cps "sunburn",
   cps "cold damage", cps "heat stress"]

/-- Embedding of `_is_fungal_disease` (source lines 639–641). -/
def is_fungal_disease (text : PyStr) : Bool :=
  FUNGAL_DISEASES.any (fun dz => pyIn dz (pyLower text))

/-- Embedding of `_is_bacterial_disease` (source lines 643–645). -/
def is_bacterial_disease (text : PyStr) : Bool :=
  BACTERIAL_DISEASES.any (fun dz => pyIn dz (pyLower text))

/-- Embedding of `_is_viral_disease` (source lines 647–649). -/
def is_viral_disease (text : PyStr) : Bool :=
  VIRAL_DISEASES.any (fun dz => pyIn dz (pyLower text))

/-- Embedding of `_is_environmental_stress` (source lines 666–668). -/
def is_environmental_stress (text : PyStr) : Bool :=
  ENVIRONMENTAL_STRESSES.any (fun st => pyIn st (pyLower text))

/-- The disease categories `_classify_disease` can return (the source
returns these as upper-case strings). -/
inductive DiseaseCategory where
  | FUNGAL
  | BACTERIAL
  | VIRAL
  | ENVIRONMENTAL
  | PEST_DAMAGE
  | HEALTHY
  | UNKNOWN
deriving DecidableEq

/-- Embedding of `_classify_disease` (source lines 225–261): the nested-if chain over
keyword-membership checks, applied to the lowercased diagnosis. -/
def classify_disease (diagnosis : PyStr) : DiseaseCategory :=
  if is_fungal_disease (pyLower diagnosis) then .FUNGAL
  else if is_bacterial_disease (pyLower diagnosis) then .BACTERIAL
  else if is_viral_disease (pyLower diagnosis) then .VIRAL
  else if is_environmental_stress (pyLower diagnosis) then .ENVIRONMENTAL
  else if pyIn (cps "pest") (pyLower diagnosis) || pyIn (cps "insect") (pyLower diagnosis) then
    .PEST_DAMAGE
  else if pyIn (cps "healthy") (pyLower diagnosis) || pyIn (cps "no disease") (pyLower diagnosis) then
    .HEALTHY
  else .UNKNOWN

/-- Spec-side restatement (spec §4.5): the membership test of one
category's keyword set, used to restate `_classify_disease` as a
first-match-wins scan over an ordered rule list. -/
def categoryMatches (c : DiseaseCategory) (dl : PyStr) : Bool :=
  match c with
  | .FUNGAL => is_fungal_disease dl
  | .BACTERIAL => is_bacterial_disease dl
  | .VIRAL => is_viral_disease dl
  | .ENVIRONMENTAL => is_environmental_stress dl
  | .PEST_DAMAGE => pyIn (cps "pest") dl || pyIn (cps "insect") dl
  | .HEALTHY => pyIn (cps "healthy") dl || pyIn (cps "no disease") dl
  | .UNKNOWN => true

/-- Spec-side restatement (spec §4.5): the fixed priority order
fungal → bacterial → viral → environmental → pest → healthy. -/
def categoryPriority : List DiseaseCategory :=
  [.FUNGAL, .BACTERIAL, .VIRAL, .ENVIRONMENTAL, .PEST_DAMAGE, .HEALTHY]

/-- Spec-side restatement (spec §4.5): first-match-wins classification
over the ordered category list, defaulting to `UNKNOWN`. -/
def classify_disease_spec (diagnosis : PyStr) : DiseaseCategory :=
  (categoryPriority.find? (fun c => categoryMatches c (pyLower diagnosis))).getD .UNKNOWN

/-- The four risk levels of `_assess_risk`. -/
inductive RiskLevel where
  | LOW
  | MEDIUM
  | HIGH
  | CRITICAL
deriving DecidableEq

/-- The bucketing of a risk score into a level (source lines 575–583):
thresholds 75/50/25 with `>=` semantics. -/
def risk_level_of (score : ℤ) : RiskLevel :=
  if 75 ≤ score then .CRITICAL
  else if 50 ≤ score then .HIGH
  else if 25 ≤ score then .MEDIUM
  else .LOW

/-- The `risk_assessment` record. -/
structure RiskAssessment where
  risk_score : ℤ
  risk_level : RiskLevel
  risk_factors : List String
deriving DecidableEq

/-- Factor 1 of `_assess_risk` (source lines 543–549): the health-band
contribution and its risk-factor text. -/
def risk_health_contrib (health_score : ℚ) : ℤ × List String :=
  if health_score ≤ 20 then (40, ["Critical plant health"])
  else if health_score ≤ 40 then (25, ["Poor plant health"])
  else (0, [])

/-- Factor 2 of `_assess_risk` (source lines 551–557): the severity
contribution. -/
def risk_severity_contrib (severity : PyStr) : ℤ × List String :=
  if severity = cps "severe" then (30, ["Severe disease status"])
  else if severity = cps "moderate" then (15, ["Moderate disease status"])
  else (0, [])

/-- Factor 3 of `_assess_risk` (source lines 559–565): the disease-type
contribution. -/
def risk_type_contrib (diagnosis : PyStr) : ℤ × List String :=
  if is_viral_disease diagnosis then (20, ["Viral disease (incurable)"])
  else if is_fungal_disease diagnosis then (15, ["Fungal disease (spreads quickly)"])
  else (0, [])

/-- Factor 4 of `_assess_risk` (source lines 567–570): the flat
spread-risk increment, guarded by the membership of the upper-case
literal `'ENVIRONMENTAL_STRESS'` in the lowercased diagnosis. -/
def risk_spread_contrib (diagnosis : PyStr) : ℤ :=
  if pyIn (cps "ENVIRONMENTAL_STRESS") (pyLower diagnosis) then 0 else 5

/-- The raw (pre-cap) risk score of `_assess_risk`. -/
def risk_raw (diagnosis : PyStr) (health_score : ℚ) (severity : PyStr) : ℤ :=
  (risk_health_contrib health_score).1 + (risk_severity_contrib severity).1 +
    (risk_type_contrib diagnosis).1 + risk_spread_contrib diagnosis

/-- Embedding of `_assess_risk` (source lines 523–589): additive contributions from
health band, severity, disease type and a flat spread-risk increment,
capped at 100, then bucketed. -/
def assess_risk (diagnosis : PyStr) (health_score : ℚ) (severity : PyStr) : RiskAssessment :=
  ⟨pminZ (risk_raw diagnosis health_score severity) 100,
   risk_level_of (pminZ (risk_raw diagnosis health_score severity) 100),
   (risk_health_contrib health_score).2 ++ (risk_severity_contrib severity).2 ++
     (risk_type_contrib diagnosis).2⟩

/-! ## `GeminiAnalyzer` (backend/services/gemini_analyzer.py)

### The merge/backfill step of `analyze_image` (lines 307–323) -/

/-- A Python JSON-ish value as stored in the result dicts, with Python
truthiness.  A missing dict key reads as `pynone` via `dict.get`. -/
inductive PyVal where
  | pynone : PyVal
  | pystr : String → PyVal
  | pylist : List PyVal → PyVal
  | pydict : List (String × PyVal) → PyVal

/-- Python truthiness of a value (`None`, `''`, `[]`, `` the empty dict ``
are falsy). -/
def PyVal.truthy : PyVal → Bool
  | .pynone => false
  | .pystr s => !(s == "")
  | .pylist l => !l.isEmpty
  | .pydict d => !d.isEmpty

/-- A crude `json.dumps` for dicts (only used by `_validate_result` to
coerce a dict-valued `description` to a string; its exact text is
irrelevant, only that it is a nonempty brace-delimited rendering). -/
def dumpsDict (d : List (String × PyVal)) : String :=
  "\x7b" ++ String.intercalate ", " (d.map (fun p => "\x22" ++ p.1 ++ "\x22")) ++ "\x7d"

/-- The eight enrichment fields of the step-1/step-2 result dicts
(`description`, `causes`, `immediate_actions`, `treatment`, `prevention`,
`watering_advice`, `recovery_timeline`, `risk_if_untreated`); any other
key of the dicts is irrelevant to the merge/backfill step. -/
structure EnrichFields where
  description : PyVal
  causes : PyVal
  immediate_actions : PyVal
  treatment : PyVal
  prevention : PyVal
  watering_advice : PyVal
  recovery_timeline : PyVal
  risk_if_untreated : PyVal

/-- Embedding of `_fill_defaults` (source lines 403–437): each enrichment field that is
falsy is replaced by a generic non-empty default derived from the plant
and disease names. -/
def fill_defaults (r : EnrichFields) (plant_name disease_name : String) : EnrichFields where
  description :=
    if r.description.truthy then r.description
    else .pystr (disease_name ++ " detected on " ++ plant_name ++ ". This condition requires attention.")
  causes :=
    if r.causes.truthy then r.causes
    else .pylist [.pystr (disease_name ++ " is commonly caused by environmental stress or pathogens")]
  immediate_actions :=
    if r.immediate_actions.truthy then r.immediate_actions
    else .pylist [.pystr "Isolate the affected plant from healthy plants",
      .pystr "Remove heavily affected leaves and dispose of them",
      .pystr "Improve air circulation around the plant"]
  treatment :=
    if r.treatment.truthy then r.treatment
    else .pydict [("organic", .pylist [.pystr "Apply neem oil spray (2 tsp per liter water, every 7 days)"]),
      ("chemical", .pylist [.pystr "Consult your local garden center for specific fungicide/pesticide"]),
      ("cultural", .pylist [.pystr "Ensure proper watering - avoid wetting leaves", .pystr "Improve drainage"])]
  prevention :=
    if r.prevention.truthy then r.prevention
    else .pylist [.pystr "Regular monitoring", .pystr "Proper spacing between plants", .pystr "Good hygiene"]
  watering_advice :=
    if r.watering_advice.truthy then r.watering_advice
    else .pydict [("frequency", .pystr "Water when top inch of soil is dry"),
      ("method", .pystr "Water at the base, avoid wetting leaves"),
      ("amount", .pystr "Until water drains from bottom")]
  recovery_timeline :=
    if r.recovery_timeline.truthy then r.recovery_timeline
    else .pydict [("first_improvement", .pystr "1-2 weeks with proper treatment"),
      ("significant_recovery", .pystr "3-4 weeks"),
      ("full_recovery", .pystr "6-8 weeks")]
  risk_if_untreated :=
    if r.risk_if_untreated.truthy then r.risk_if_untreated
    else .pystr "The condition may spread and worsen, potentially killing the plant."

/-- Embedding of `_fill_healthy_defaults` (source lines 439–469), restricted to the
eight enrichment fields: `setdefault` fills only missing (`pynone`) keys. -/
def fill_healthy_defaults (r : EnrichFields) (plant_name : String) : EnrichFields where
  description :=
    match r.description with
    | .pynone => .pystr ("This " ++ plant_name ++ " appears to be in good health with no visible signs of disease.")
    | v => v
  causes := match r.causes with | .pynone => .pylist [] | v => v
  immediate_actions :=
    match r.immediate_actions with
    | .pynone => .pylist [.pystr "Continue current care routine",
        .pystr "Monitor for any changes in leaf color or texture",
        .pystr "Maintain consistent watering schedule"]
    | v => v
  treatment :=
    match r.treatment with
    | .pynone => .pydict [("organic", .pylist [.pystr "No treatment needed - plant is healthy"]),
        ("chemical", .pylist [.pystr "No chemical treatment required"]),
        ("cultural", .pylist [.pystr "Continue good cultural practices"])]
    | v => v
  prevention :=
    match r.prevention with
    | .pynone => .pylist [.pystr "Regular inspection of leaves and stems",
        .pystr "Proper watering and fertilizing schedule",
        .pystr "Good air circulation"]
    | v => v
  watering_advice :=
    match r.watering_advice with
    | .pynone => .pydict [("frequency", .pystr "Follow regular schedule for this plant"),
        ("method", .pystr "Water at soil level"),
        ("amount", .pystr "Standard amount for the species")]
    | v => v
  recovery_timeline :=
    match r.recovery_timeline with
    | .pynone => .pydict [("first_improvement", .pystr "N/A - Plant is healthy"),
        ("significant_recovery", .pystr "N/A"),
        ("full_recovery", .pystr "N/A")]
    | v => v
  risk_if_untreated :=
    match r.risk_if_untreated with
    | .pynone => .pystr "No risk - plant is currently healthy."
    | v => v

/-- The overlay of step-2 results onto the step-1 result (source lines
307–312): each truthy step-2 field replaces the step-1 field. -/
def merge_step2 (r s2 : EnrichFields) : EnrichFields where
  description := if s2.description.truthy then s2.description else r.description
  causes := if s2.causes.truthy then s2.causes else r.causes
  immediate_actions := if s2.immediate_actions.truthy then s2.immediate_actions else r.immediate_actions
  treatment := if s2.treatment.truthy then s2.treatment else r.treatment
  prevention := if s2.prevention.truthy then s2.prevention else r.prevention
  watering_advice := if s2.watering_advice.truthy then s2.watering_advice else r.watering_advice
  recovery_timeline := if s2.recovery_timeline.truthy then s2.recovery_timeline else r.recovery_timeline
  risk_if_untreated := if s2.risk_if_untreated.truthy then s2.risk_if_untreated else r.risk_if_untreated

/-- ASCII lowercasing of a Lean `String` (Python `str.lower` on the ASCII
names compared by `analyze_image`), character by character. -/
def lowerStr (s : String) : String := ⟨s.data.map Char.toLower⟩

/-- The ENRICH/MERGE branch of `analyze_image` (source lines 252–319),
restricted to the enrichment fields: compute `is_healthy`, and for a
non-healthy known disease either overlay a successful step-2 result or
backfill defaults; for a healthy/unknown plant fill healthy defaults.
`step2_result = none` models a total step-2 failure. -/
def analyze_merge (step1 : EnrichFields) (plant_name disease_name : String)
    (isHealthyFlag : Bool) (step2_result : Option EnrichFields) : EnrichFields :=
  if !(isHealthyFlag || decide (lowerStr disease_name ∈ (["healthy", "none", ""] : List String))) &&
      !(decide (lowerStr disease_name ∈ (["healthy", "unknown", "none", ""] : List String))) then
    match step2_result with
    | some s2 => merge_step2 step1 s2
    | none => fill_defaults step1 plant_name disease_name
  else
    fill_healthy_defaults step1 plant_name

/-- Python `dict.setdefault(key, dflt)` at the value level: a missing
(`pynone`) value becomes `dflt`, anything else is kept. -/
def setdefault (v dflt : PyVal) : PyVal :=
  match v with
  | .pynone => dflt
  | v => v

/-- The `description` handling of `_validate_result` (source lines 482
and 491–493): `setdefault('description', '')` followed by the coercion of
a dict-valued description to its `json.dumps` string. -/
def coerce_description (v : PyVal) : PyVal :=
  match v with
  | .pynone => .pystr ""
  | .pydict d => .pystr (dumpsDict d)
  | v => v

/-- Embedding of `_validate_result` (source lines 471–513) restricted to the eight
enrichment fields: `setdefault` fills missing (`pynone`) keys with empty
values, and a dict-valued `description` is coerced to its `json.dumps`
string. -/
def validate_result (r : EnrichFields) : EnrichFields where
  description := coerce_description r.description
  causes := setdefault r.causes (.pylist [])
  immediate_actions := setdefault r.immediate_actions (.pylist [])
  treatment := setdefault r.treatment (.pydict [])
  prevention := setdefault r.prevention (.pylist [])
  watering_advice := setdefault r.watering_advice (.pydict [])
  recovery_timeline := setdefault r.recovery_timeline (.pydict [])
  risk_if_untreated := setdefault r.risk_if_untreated (.pystr "")

/-- All eight enrichment fields of a record are truthy (non-empty). -/
def EnrichFields.allTruthy (r : EnrichFields) : Prop :=
  r.description.truthy = true ∧ r.causes.truthy = true ∧
  r.immediate_actions.truthy = true ∧ r.treatment.truthy = true ∧
  r.prevention.truthy = true ∧ r.watering_advice.truthy = true ∧
  r.recovery_timeline.truthy = true ∧ r.risk_if_untreated.truthy = true

/-! ### `_parse_json` (backend/services/gemini_analyzer.py, lines 353–401)

`json.loads` is an external library call; the embedding takes it as a
parameter `loads : PyStr → Option J` (`some` models a successful parse,
`none` a `JSONDecodeError`).  Everything proved below holds for every
such `loads` function. -/

/-- The code fence literals stripped by `_parse_json`. -/
def fenceJson : PyStr := cps "\x60\x60\x60json"

/-- The three-backtick fence. -/
def fence : PyStr := cps "\x60\x60\x60"

/-- The leading-fence removal of `_parse_json` (source lines 358–361):
drop 7 code points after ```` ```json ````, else 3 after ```` ``` ````. -/
def cleanStart (c0 : PyStr) : PyStr :=
  if pyStartsWith c0 fenceJson then c0.drop 7
  else if pyStartsWith c0 fence then c0.drop 3
  else c0

/-- The trailing-fence removal of `_parse_json` (source lines 362–363):
drop the last 3 code points after a trailing ```` ``` ````. -/
def cleanEnd (c1 : PyStr) : PyStr :=
  if pyEndsWith c1 fence then c1.take (c1.length - 3) else c1

/-- The cleaning pass of `_parse_json` (source lines 356–364): strip,
remove a leading ```` ```json ```` or ```` ``` ```` fence and a trailing
```` ``` ```` fence, strip again. -/
def cleanText (text : PyStr) : PyStr :=
  pyStrip (cleanEnd (cleanStart (pyStrip text)))

/-- The regex extraction `re.search(r'\x7b[\s\S]*\x7d', cleaned)` (source
line 373): greedy, so the match runs from the first `{` to the last `}`
when the latter comes strictly after the former. -/
def regexExtract (s : PyStr) : Option PyStr :=
  match s.findIdx? (· == 123), s.reverse.findIdx? (· == 125) with
  | some i, some k =>
    let j := s.length - 1 - k
    if i < j then some ((s.drop i).take (j - i + 1)) else none
  | _, _ => none

/-- The brace-count scan of `_parse_json` (source lines 381–394): walk the
cleaned text tracking nesting depth and the start of the current
top-level object, and return the first balanced slice that parses. -/
def braceScanGo {J : Type} (loads : PyStr → Option J) (cleaned : PyStr) :
    ℕ → ℤ → Option ℕ → PyStr → Option J
  | _, _, _, [] => none
  | i, bc, st, ch :: rest =>
    if ch = 123 then
      braceScanGo loads cleaned (i + 1) (bc + 1) (if bc = 0 then some i else st) rest
    else if ch = 125 then
      let bc' := bc - 1
      match st with
      | some s0 =>
        if bc' = 0 then
          match loads ((cleaned.drop s0).take (i + 1 - s0)) with
          | some v => some v
          | none => braceScanGo loads cleaned (i + 1) bc' none rest
        else braceScanGo loads cleaned (i + 1) bc' st rest
      | none => braceScanGo loads cleaned (i + 1) bc' none rest
    else braceScanGo loads cleaned (i + 1) bc st rest

/-- The brace-count scan started at the top of the cleaned text. -/
def braceScan {J : Type} (loads : PyStr → Option J) (cleaned : PyStr) : Option J :=
  braceScanGo loads cleaned 0 0 none cleaned

/-- The attempt chain of `_parse_json` after cleaning (source lines
366–397): direct parse, then regex extraction, then brace scan, else
`None`. -/
def parseCore {J : Type} (loads : PyStr → Option J) (cleaned : PyStr) : Option J :=
  match loads cleaned with
  | some v => some v
  | none =>
    match regexExtract cleaned with
    | some seg =>
      match loads seg with
      | some v => some v
      | none => braceScan loads cleaned
    | none => braceScan loads cleaned

/-- Embedding of `_parse_json` (source lines 353–401): clean the text, then run the
attempt chain. -/
def parse_json {J : Type} (loads : PyStr → Option J) (text : PyStr) : Option J :=
  parseCore loads (cleanText text)

/-- Wrapping a payload in markdown code fences, as in the C7 scenario:
`"\x60\x60\x60json\n" + t + "\n\x60\x60\x60"`. -/
def fenceWrap (t : PyStr) : PyStr := fenceJson ++ [10] ++ t ++ [10] ++ fence

/-! ## Helper lemmas -/

/-- Summing a pointwise division is dividing the sum. -/
theorem sum_map_div {α : Type} (l : List α) (f : α → ℚ) (T : ℚ) :
    (l.map (fun x => f x / T)).sum = (l.map f).sum / T := by
  induction l with
  | nil => simp
  | cons a t ih => simp [ih, add_div]

/-- The value `max(0, x)` is nonnegative. -/
theorem zero_le_pmax (x : ℚ) : 0 ≤ pmax 0 x := by
  unfold pmax
  split
  · assumption
  · exact le_refl 0

/-- Every raw disease score is nonnegative (each is a `max(0, _)`). -/
theorem rawScores_nonneg (g e d b : ℚ) : ∀ p ∈ rawScores g e d b, 0 ≤ p.2 := by
  intro p hp
  fin_cases hp <;> exact zero_le_pmax _

/-- There are exactly 8 raw scores. -/
theorem rawScores_length (g e d b : ℚ) : (rawScores g e d b).length = 8 := rfl

/-- The score list keeps its 8 entries through normalization. -/
theorem calculate_disease_scores_length (g e d b : ℚ) :
    (calculate_disease_scores g e d b).length = 8 := by
  unfold calculate_disease_scores
  split <;> simp [rawScores]

/-- The builder `mkPrediction` stores the given confidence unchanged. -/
theorem mkPrediction_confidence (n : String) (c : ℚ) : (mkPrediction n c).confidence = c := by
  unfold mkPrediction
  cases h : DISEASE_DATABASE n with
  | none => rfl
  | some v => obtain ⟨s, ds, cs⟩ := v; rfl

/-- The sorted score list keeps its 8 entries. -/
theorem sortedDiseases_length (g e d b : ℚ) : (sortedDiseases g e d b).length = 8 := by
  unfold sortedDiseases
  rw [(List.perm_insertionSort scoreGe _).length_eq]
  exact calculate_disease_scores_length g e d b

/-- The sorted score list is descending with respect to `scoreGe`. -/
theorem sortedDiseases_sorted (g e d b : ℚ) : List.Sorted scoreGe (sortedDiseases g e d b) :=
  List.sorted_insertionSort scoreGe _

/-- Chapter-and-verse shape of `filter_predictions`: the result is never
empty, and when the threshold filter removes everything the result is the
singleton head of the input. -/
theorem filter_predictions_spec (preds : List Prediction) (t : ℚ) (h : preds ≠ []) :
    filter_predictions preds t ≠ [] ∧
    (preds.filter (fun p => decide (t ≤ p.confidence)) = [] →
      ∃ p l, preds = p :: l ∧ filter_predictions preds t = [p]) := by
  obtain ⟨p, l, rfl⟩ := List.exists_cons_of_ne_nil h
  unfold filter_predictions
  constructor
  · split
    · simp
    · next hne => simpa [List.isEmpty_iff] using hne
  · intro hf
    exact ⟨p, l, rfl, by simp [hf]⟩

/-- The classifier always emits exactly 5 predictions. -/
theorem classify_predictions_length (g e d b : ℚ) :
    (classify_predictions g e d b).length = 5 := by
  unfold classify_predictions
  rw [List.length_map, List.length_take, sortedDiseases_length]
  rfl

/-- The filtering step on the classifier output is never empty, and when
the filter drops everything the surviving singleton dominates every
prediction's confidence. -/
theorem classify_filter_spec (g e d b t : ℚ) :
    filter_predictions (classify_predictions g e d b) t ≠ [] ∧
    ((classify_predictions g e d b).filter (fun p => decide (t ≤ p.confidence)) = [] →
      ∃ p, filter_predictions (classify_predictions g e d b) t = [p] ∧
        ∀ q ∈ classify_predictions g e d b, q.confidence ≤ p.confidence) := by
  have hne : classify_predictions g e d b ≠ [] := by
    intro hnil
    have := classify_predictions_length g e d b
    rw [hnil] at this
    simp at this
  obtain ⟨h1, h2⟩ := filter_predictions_spec _ t hne
  refine ⟨h1, ?_⟩
  intro hfilter
  obtain ⟨p, l, hcons, hsing⟩ := h2 hfilter
  refine ⟨p, hsing, ?_⟩
  obtain ⟨x, xs, hsplit⟩ : ∃ x xs, sortedDiseases g e d b = x :: xs := by
    cases hcase : sortedDiseases g e d b with
    | nil =>
      have := sortedDiseases_length g e d b
      rw [hcase] at this
      simp at this
    | cons x xs => exact ⟨x, xs, rfl⟩
  have hsorted : List.Sorted scoreGe (x :: xs) := hsplit ▸ sortedDiseases_sorted g e d b
  have hclass : classify_predictions g e d b =
      mkPrediction x.1 x.2 :: (xs.take 4).map (fun p => mkPrediction p.1 p.2) := by
    unfold classify_predictions
    rw [hsplit]
    rfl
  have hp : mkPrediction x.1 x.2 = p := by
    rw [hclass] at hcons
    injection hcons with h1 h2
  intro q hq
  rw [← hp, mkPrediction_confidence]
  rw [hclass] at hq
  rcases List.mem_cons.mp hq with hq1 | hq2
  · rw [hq1, mkPrediction_confidence]
  · obtain ⟨r, hr, rfl⟩ := List.mem_map.mp hq2
    rw [mkPrediction_confidence]
    exact List.rel_of_sorted_cons hsorted r (List.take_subset 4 xs hr)

/-! ## Claim theorems for the rule-based detector -/

/-- C1: for every feature vector, the 8 per-disease scores computed by
`_calculate_disease_scores` are each nonnegative, and whenever the raw
(pre-normalization) sum is nonzero the returned scores sum to exactly 1. -/
theorem disease_scores_nonneg_and_normalized (g e d b : ℚ) :
    ((calculate_disease_scores g e d b).length = 8 ∧
      ∀ p ∈ calculate_disease_scores g e d b, 0 ≤ p.2) ∧
    (rawTotal g e d b ≠ 0 →
      ((calculate_disease_scores g e d b).map Prod.snd).sum = 1) := by
  have hraw := rawScores_nonneg g e d b
  have hsum0 : 0 ≤ rawTotal g e d b := by
    apply List.sum_nonneg
    intro x hx
    obtain ⟨q, hq, rfl⟩ := List.mem_map.mp hx
    exact hraw q hq
  refine ⟨⟨calculate_disease_scores_length g e d b, ?_⟩, ?_⟩
  · intro p hp
    unfold calculate_disease_scores at hp
    split at hp
    · next hpos =>
      obtain ⟨q, hq, rfl⟩ := List.mem_map.mp hp
      exact div_nonneg (hraw q hq) (le_of_lt hpos)
    · exact hraw p hp
  · intro hne
    have hpos : 0 < rawTotal g e d b := lt_of_le_of_ne hsum0 (Ne.symm hne)
    unfold calculate_disease_scores
    rw [if_pos hpos, List.map_map]
    have hcomp : (Prod.snd ∘ fun p : String × ℚ => (p.1, p.2 / rawTotal g e d b)) =
        fun p : String × ℚ => p.2 / rawTotal g e d b := rfl
    rw [hcomp, sum_map_div (rawScores g e d b) Prod.snd]
    exact div_self hne

/-- C2: for every non-empty image matrix and every confidence threshold,
`detect_disease` returns a non-empty prediction list, and when the
threshold filter empties the list the returned singleton is the
highest-scoring prediction (the head of the descending-sorted list,
whose confidence dominates every prediction). -/
theorem detect_disease_predictions_nonempty (img : Image) (std t : ℚ) (h : imgSize img ≠ 0) :
    (detect_disease img std t).predictions ≠ [] ∧
    ((classify_predictions (extract_features img std).greenness
        (extract_features img std).edge_density
        (extract_features img std).damaged_pixels_ratio
        (extract_features img std).brightness).filter (fun p => decide (t ≤ p.confidence)) = [] →
      ∃ p, (detect_disease img std t).predictions = [p] ∧
        ∀ q ∈ classify_predictions (extract_features img std).greenness
            (extract_features img std).edge_density
            (extract_features img std).damaged_pixels_ratio
            (extract_features img std).brightness,
          q.confidence ≤ p.confidence) := by
  have hdet : (detect_disease img std t).predictions =
      filter_predictions
        (classify_predictions (extract_features img std).greenness
          (extract_features img std).edge_density
          (extract_features img std).damaged_pixels_ratio
          (extract_features img std).brightness) t := by
    unfold detect_disease
    rw [if_neg h]
  obtain ⟨h1, h2⟩ := classify_filter_spec (extract_features img std).greenness
    (extract_features img std).edge_density
    (extract_features img std).damaged_pixels_ratio
    (extract_features img std).brightness t
  refine ⟨by rw [hdet]; exact h1, ?_⟩
  intro hfilter
  obtain ⟨p, hsing, hmax⟩ := h2 hfilter
  exact ⟨p, by rw [hdet]; exact hsing, hmax⟩

/-- C2 witness: at the all-green feature vector with threshold 2 the
filter drops everything and the returned singleton is the top
prediction. -/
theorem detect_disease_predictions_nonempty_witness :
    (detect_disease [[((0:ℚ), 200, 0)]] 0 2).predictions ≠ [] :=
  (detect_disease_predictions_nonempty [[((0:ℚ), 200, 0)]] 0 2 (by decide)).1

/-- At the pure-green feature vector the raw total evaluates to 1. -/
theorem rawTotal_green : rawTotal 1 0 0 128 = 1 := by
  norm_num [rawTotal, rawScores, pmax, pmin, pabs]

/-- At the pure-green feature vector the normalized score list evaluates
to `healthy ↦ 1` and everything else `0`. -/
theorem scores_green : calculate_disease_scores 1 0 0 128 =
    [("healthy", 1), ("leaf_spot", 0), ("powdery_mildew", 0), ("rust", 0),
     ("blight", 0), ("yellowing", 0), ("wilting", 0), ("pest_damage", 0)] := by
  norm_num [calculate_disease_scores, rawTotal, rawScores, pmax, pmin, pabs]

/-- C1 witness: at the pure-green feature vector the raw total is 1 and
the normalized scores sum to 1; the "healthy" score is nonnegative. -/
theorem disease_scores_nonneg_and_normalized_witness :
    rawTotal 1 0 0 128 ≠ 0 ∧
    ((calculate_disease_scores 1 0 0 128).map Prod.snd).sum = 1 ∧
    (0 : ℚ) ≤ (("healthy", (1 : ℚ)) : String × ℚ).2 :=
  ⟨by rw [rawTotal_green]; exact one_ne_zero,
   (disease_scores_nonneg_and_normalized 1 0 0 128).2
     (by rw [rawTotal_green]; exact one_ne_zero),
   (disease_scores_nonneg_and_normalized 1 0 0 128).1.2 ("healthy", (1 : ℚ))
     (by rw [scores_green]; simp)⟩

/-- A nonzero-size 1×1 matrix (fewer than 2 rows and columns). -/
def smallImage : Image := [[((100 : ℚ), 100, 100)]]

/-- C3 counterexample: a 1×1×3 matrix is neither empty nor zero-sized,
has fewer than 2 rows and columns, and `detect_disease` does NOT fail on
it: it returns a successful, non-empty classification result. -/
theorem detect_disease_small_matrix_succeeds :
    imgSize smallImage ≠ 0 ∧ imgRows smallImage = 1 ∧ imgCols smallImage = 1 ∧
    (detect_disease smallImage 0 0.7).success = true ∧
    (detect_disease smallImage 0 0.7).error = none ∧
    (detect_disease smallImage 0 0.7).predictions ≠ [] := by
  refine ⟨by decide, rfl, rfl, ?_, ?_, ?_⟩
  · unfold detect_disease
    rw [if_neg (by decide)]
  · unfold detect_disease
    rw [if_neg (by decide)]
  · unfold detect_disease
    rw [if_neg (by decide)]
    exact (classify_filter_spec _ _ _ _ _).1

/-- The grayscale reduction has the image's row count. -/
theorem grayOf_length (img : Image) : (grayOf img).length = imgRows img := by
  simp [grayOf, imgRows]

/-- The grayscale reduction has the image's column count. -/
theorem grayOf_head_length (img : Image) : ((grayOf img).headD []).length = imgCols img := by
  cases img with
  | nil => rfl
  | cons r rest => simp [grayOf, imgCols]

/-- C3 (amended): `detect_disease` returns the invalid-image error
response exactly for empty/zero-sized matrices; a nonzero-size matrix
with fewer than 2 rows or fewer than 2 columns is NOT rejected — edge
density falls back to `0.0` and a normal classification result is
produced. -/
theorem detect_disease_validation (img : Image) (std t : ℚ) :
    (imgSize img = 0 → detect_disease img std t = ⟨false, [], some "Invalid image provided"⟩) ∧
    (imgSize img ≠ 0 →
      (detect_disease img std t).success = true ∧
      (detect_disease img std t).error = none ∧
      (imgRows img < 2 ∨ imgCols img < 2 → (extract_features img std).edge_density = 0)) := by
  constructor
  · intro h
    unfold detect_disease
    rw [if_pos h]
  · intro h
    refine ⟨?_, ?_, ?_⟩
    · unfold detect_disease
      rw [if_neg h]
    · unfold detect_disease
      rw [if_neg h]
    · intro hsmall
      show calculate_edge_density (grayOf img) = 0
      unfold calculate_edge_density
      rw [if_pos]
      rw [grayOf_length, grayOf_head_length]
      exact hsmall

/-- C3 (amended) witness: the empty matrix yields the error response,
while the 1×1 matrix yields a success with zero edge density. -/
theorem detect_disease_validation_witness :
    detect_disease ([] : Image) 0 0.7 = ⟨false, [], some "Invalid image provided"⟩ ∧
    (detect_disease smallImage 0 0.7).success = true ∧
    (extract_features smallImage 0).edge_density = 0 :=
  ⟨(detect_disease_validation [] 0 0.7).1 (by decide),
   ((detect_disease_validation smallImage 0 0.7).2 (by decide)).1,
   ((detect_disease_validation smallImage 0 0.7).2 (by decide)).2.2 (by decide)⟩

/-! ## Claim theorems for severity estimation -/

/-- C5: the severity tier of `_analyze_severity` is monotone in each of
its two drivers: with `affected_area` fixed, a larger `damage_ratio`
never yields a strictly lower tier (in the order mild < moderate <
severe), and symmetrically for `affected_area` with `damage_ratio`
fixed. -/
theorem severity_level_monotone (d d' a a' : ℚ) :
    (d ≤ d' → (severity_level d a).rank ≤ (severity_level d' a).rank) ∧
    (a ≤ a' → (severity_level d a).rank ≤ (severity_level d a').rank) := by
  constructor
  · intro h
    have imp1 : (0.6 < d ∨ 0.7 < a) → (0.6 < d' ∨ 0.7 < a) := by
      rintro (hd | ha)
      exacts [Or.inl (lt_of_lt_of_le hd h), Or.inr ha]
    have imp2 : (0.3 < d ∨ 0.4 < a) → (0.3 < d' ∨ 0.4 < a) := by
      rintro (hd | ha)
      exacts [Or.inl (lt_of_lt_of_le hd h), Or.inr ha]
    unfold severity_level
    split_ifs <;> simp only [SeverityTier.rank] <;> first | omega | tauto
  · intro h
    have imp1 : (0.6 < d ∨ 0.7 < a) → (0.6 < d ∨ 0.7 < a') := by
      rintro (hd | ha)
      exacts [Or.inl hd, Or.inr (lt_of_lt_of_le ha h)]
    have imp2 : (0.3 < d ∨ 0.4 < a) → (0.3 < d ∨ 0.4 < a') := by
      rintro (hd | ha)
      exacts [Or.inl hd, Or.inr (lt_of_lt_of_le ha h)]
    unfold severity_level
    split_ifs <;> simp only [SeverityTier.rank] <;> first | omega | tauto

/-- The tier at the all-zero point is mild and at damage 1 is severe. -/
theorem severity_level_bounds : severity_level 0 0 = .mild ∧ severity_level 1 0 = .severe := by
  constructor <;> · unfold severity_level; norm_num

/-- C5 witness: going from damage 0 to damage 1 at fixed affected area 0
does not lower the tier (it raises mild to severe). -/
theorem severity_level_monotone_witness :
    (severity_level 0 0).rank ≤ (severity_level 1 0).rank :=
  (severity_level_monotone 0 1 0 0).1 (by norm_num)

/-! ## Claim theorems for the logic engine -/

/-- ASCII lowercasing never produces an upper-case `E` (code point 69). -/
theorem lowerCp_ne_E (n : ℕ) : lowerCp n ≠ 69 := by
  unfold lowerCp
  split <;> omega

/-- A needle whose first code point is absent from the haystack is not a
substring. -/
theorem pyIn_cons_false (c : ℕ) (p s : PyStr) (h : c ∉ s) : pyIn (c :: p) s = false := by
  induction s with
  | nil => rfl
  | cons b t ih =>
    have hcb : c ≠ b := fun hc => h (hc ▸ List.mem_cons_self b t)
    have hct : c ∉ t := fun hc => h (List.mem_cons_of_mem b hc)
    show (startSeg (c :: p) (b :: t) || pyIn (c :: p) t) = false
    rw [ih hct]
    show (((c == b) && startSeg p (b :: t).tail) || false) = false
    simp [hcb]

/-- The upper-case literal `'ENVIRONMENTAL_STRESS'` is never a substring
of a lowercased string: its first character `E` cannot survive
`str.lower`. -/
theorem env_stress_never_in_lower (s : PyStr) :
    pyIn (cps "ENVIRONMENTAL_STRESS") (pyLower s) = false := by
  have h69 : (69 : ℕ) ∉ pyLower s := by
    intro hmem
    obtain ⟨c, _, hlc⟩ := List.mem_map.mp hmem
    exact lowerCp_ne_E c hlc
  have hcps : cps "ENVIRONMENTAL_STRESS" = 69 :: cps "NVIRONMENTAL_STRESS" := rfl
  rw [hcps]
  exact pyIn_cons_false _ _ _ h69

/-- The health-band contribution is between 0 and 40. -/
theorem risk_health_contrib_bounds (h : ℚ) :
    0 ≤ (risk_health_contrib h).1 ∧ (risk_health_contrib h).1 ≤ 40 := by
  unfold risk_health_contrib
  split_ifs <;> simp

/-- The severity contribution is between 0 and 30. -/
theorem risk_severity_contrib_bounds (sev : PyStr) :
    0 ≤ (risk_severity_contrib sev).1 ∧ (risk_severity_contrib sev).1 ≤ 30 := by
  unfold risk_severity_contrib
  split_ifs <;> simp

/-- The disease-type contribution is between 0 and 20. -/
theorem risk_type_contrib_bounds (d : PyStr) :
    0 ≤ (risk_type_contrib d).1 ∧ (risk_type_contrib d).1 ≤ 20 := by
  unfold risk_type_contrib
  split_ifs <;> simp

/-- The spread-risk increment always evaluates to 5. -/
theorem risk_spread_contrib_eq (d : PyStr) : risk_spread_contrib d = 5 := by
  unfold risk_spread_contrib
  rw [env_stress_never_in_lower d]
  simp

/-- C6: for every diagnosis, health score and severity, the risk score of
`_assess_risk` lies in `[0, 100]`, the risk level is the bucketing of the
capped score at thresholds 25/50/75 with `>=` semantics, and the bucket
function maps 24 ↦ LOW, 25 ↦ MEDIUM, 49 ↦ MEDIUM, 50 ↦ HIGH, 74 ↦ HIGH,
75 ↦ CRITICAL. -/
theorem assess_risk_bounds_and_buckets (d : PyStr) (h : ℚ) (sev : PyStr) :
    (0 ≤ (assess_risk d h sev).risk_score ∧ (assess_risk d h sev).risk_score ≤ 100) ∧
    (assess_risk d h sev).risk_level = risk_level_of (assess_risk d h sev).risk_score ∧
    risk_level_of 24 = .LOW ∧ risk_level_of 25 = .MEDIUM ∧ risk_level_of 49 = .MEDIUM ∧
    risk_level_of 50 = .HIGH ∧ risk_level_of 74 = .HIGH ∧ risk_level_of 75 = .CRITICAL := by
  have h1 := risk_health_contrib_bounds h
  have h2 := risk_severity_contrib_bounds sev
  have h3 := risk_type_contrib_bounds d
  have h4 := risk_spread_contrib_eq d
  refine ⟨?_, rfl, by decide, by decide, by decide, by decide, by decide, by decide⟩
  show 0 ≤ pminZ (risk_raw d h sev) 100 ∧ pminZ (risk_raw d h sev) 100 ≤ 100
  unfold risk_raw at *
  unfold pminZ
  split <;> omega

/-- C10: the spread-risk guard of `_assess_risk` tests the upper-case
literal `'ENVIRONMENTAL_STRESS'` against the lowercased diagnosis, which
never matches, so the flat 5-point increment is added unconditionally and
the risk score is always at least 5 — never 0. -/
theorem assess_risk_always_at_least_five (d : PyStr) (h : ℚ) (sev : PyStr) :
    pyIn (cps "ENVIRONMENTAL_STRESS") (pyLower d) = false ∧
    risk_spread_contrib d = 5 ∧
    5 ≤ (assess_risk d h sev).risk_score ∧ (assess_risk d h sev).risk_score ≠ 0 := by
  have h1 := risk_health_contrib_bounds h
  have h2 := risk_severity_contrib_bounds sev
  have h3 := risk_type_contrib_bounds d
  have h4 := risk_spread_contrib_eq d
  refine ⟨env_stress_never_in_lower d, h4, ?_⟩
  have : 5 ≤ (assess_risk d h sev).risk_score := by
    show 5 ≤ pminZ (risk_raw d h sev) 100
    unfold risk_raw at *
    unfold pminZ
    split <;> omega
  exact ⟨this, by omega⟩

/-- C8: `_classify_disease` is exactly first-match-wins classification
over the fixed priority order fungal → bacterial → viral → environmental
→ pest → healthy, defaulting to UNKNOWN. -/
theorem classify_disease_priority_order (d : PyStr) :
    classify_disease d = classify_disease_spec d := by
  unfold classify_disease classify_disease_spec categoryPriority categoryMatches
  cases hf : is_fungal_disease (pyLower d) <;>
    cases hb : is_bacterial_disease (pyLower d) <;>
      cases hv : is_viral_disease (pyLower d) <;>
        cases he : is_environmental_stress (pyLower d) <;>
          cases hp : (pyIn (cps "pest") (pyLower d) || pyIn (cps "insect") (pyLower d)) <;>
            cases hh : (pyIn (cps "healthy") (pyLower d) || pyIn (cps "no disease") (pyLower d)) <;>
              simp [List.find?, hf, hb, hv, he, hp, hh]

/-- C9: the diagnoses 'bacterial leaf spot', 'bacterial blight' and
'fire blight' all belong to the bacterial-disease vocabulary, yet
`_classify_disease` returns FUNGAL (never BACTERIAL) for each, because
the fungal keyword check ('leaf spot', 'blight') runs first and matches
as a substring. -/
theorem bacterial_diagnoses_classified_fungal :
    cps "bacterial leaf spot" ∈ BACTERIAL_DISEASES ∧
    cps "bacterial blight" ∈ BACTERIAL_DISEASES ∧
    cps "fire blight" ∈ BACTERIAL_DISEASES ∧
    classify_disease (cps "bacterial leaf spot") = .FUNGAL ∧
    classify_disease (cps "bacterial blight") = .FUNGAL ∧
    classify_disease (cps "fire blight") = .FUNGAL := by
  refine ⟨by decide, by decide, by decide, ?_, ?_, ?_⟩ <;> decide

/-! ## Claim theorems for the orchestrator merge/backfill step -/

/-- Appending a non-empty string on the right keeps a string non-empty. -/
theorem str_append_ne_empty_right (a b : String) (hb : b ≠ "") : a ++ b ≠ "" := by
  intro h
  apply hb
  have hlen := congrArg String.length h
  rw [String.length_append] at hlen
  have hb0 : b.length = 0 := by
    have : String.length "" = 0 := rfl
    omega
  cases b with
  | mk l =>
    cases l with
    | nil => rfl
    | cons c t => simp [String.length] at hb0

/-- Appending a non-empty string on the left keeps a string non-empty. -/
theorem str_append_ne_empty_left (a b : String) (ha : a ≠ "") : a ++ b ≠ "" := by
  intro h
  apply ha
  have hlen := congrArg String.length h
  rw [String.length_append] at hlen
  have ha0 : a.length = 0 := by
    have : String.length "" = 0 := rfl
    omega
  cases a with
  | mk l =>
    cases l with
    | nil => rfl
    | cons c t => simp [String.length] at ha0

/-- Every field filled by `_fill_defaults` comes out truthy: either the
original truthy value is kept or a non-empty default is substituted. -/
theorem fill_defaults_allTruthy (r : EnrichFields) (pn dn : String) :
    (fill_defaults r pn dn).allTruthy := by
  unfold fill_defaults EnrichFields.allTruthy
  refine ⟨?_, ?_, ?_, ?_, ?_, ?_, ?_, ?_⟩ <;> dsimp only <;> split
  · assumption
  · show (PyVal.pystr (dn ++ " detected on " ++ pn ++ ". This condition requires attention.")).truthy = true
    simp only [PyVal.truthy, Bool.not_eq_true', beq_eq_false_iff_ne, ne_eq]
    exact str_append_ne_empty_right _ _ (by decide)
  · assumption
  · rfl
  · assumption
  · rfl
  · assumption
  · rfl
  · assumption
  · rfl
  · assumption
  · rfl
  · assumption
  · rfl
  · assumption
  · rfl

/-- The function `setdefault` keeps a truthy value truthy. -/
theorem setdefault_truthy (v d : PyVal) (h : v.truthy = true) :
    (setdefault v d).truthy = true := by
  cases v with
  | pynone => simp [PyVal.truthy] at h
  | pystr s => exact h
  | pylist l => exact h
  | pydict dd => exact h

/-- The description coercion keeps a truthy value truthy (a dict dumps to
a non-empty brace-delimited string). -/
theorem coerce_description_truthy (v : PyVal) (h : v.truthy = true) :
    (coerce_description v).truthy = true := by
  cases v with
  | pynone => simp [PyVal.truthy] at h
  | pystr s => exact h
  | pylist l => exact h
  | pydict d =>
    show (PyVal.pystr (dumpsDict d)).truthy = true
    simp only [PyVal.truthy, Bool.not_eq_true', beq_eq_false_iff_ne, ne_eq, dumpsDict]
    exact str_append_ne_empty_left "\x7b" _ (by decide)

/-- The embedded `_validate_result` keeps all-truthy enrichment fields all-truthy. -/
theorem validate_result_preserves_allTruthy (r : EnrichFields) (h : r.allTruthy) :
    (validate_result r).allTruthy := by
  obtain ⟨h1, h2, h3, h4, h5, h6, h7, h8⟩ := h
  exact ⟨coerce_description_truthy _ h1, setdefault_truthy _ _ h2, setdefault_truthy _ _ h3,
    setdefault_truthy _ _ h4, setdefault_truthy _ _ h5, setdefault_truthy _ _ h6,
    setdefault_truthy _ _ h7, setdefault_truthy _ _ h8⟩

/-- C4: when IDENTIFY succeeds with a non-healthy, known disease name
(`is_healthy` false and the lowercased name not in
healthy/unknown/none/empty) and ENRICH fails entirely
(`step2_result = None`), the merged and validated result carries a
non-empty (truthy) value in every one of the eight enrichment fields. -/
theorem analyze_merge_enrich_failure_backfills (step1 : EnrichFields) (pn dn : String)
    (h1 : lowerStr dn ∉ (["healthy", "unknown", "none", ""] : List String)) :
    (validate_result (analyze_merge step1 pn dn false none)).allTruthy := by
  have h3 : lowerStr dn ∉ (["healthy", "none", ""] : List String) := by
    intro hc
    apply h1
    simp only [List.mem_cons, List.not_mem_nil, or_false] at hc ⊢
    tauto
  have hbranch : analyze_merge step1 pn dn false none = fill_defaults step1 pn dn := by
    unfold analyze_merge
    rw [decide_eq_false h3, decide_eq_false h1]
    rfl
  rw [hbranch]
  exact validate_result_preserves_allTruthy _ (fill_defaults_allTruthy step1 pn dn)

/-- The empty step-1 record (all enrichment keys missing). -/
def emptyEnrich : EnrichFields :=
  ⟨.pynone, .pynone, .pynone, .pynone, .pynone, .pynone, .pynone, .pynone⟩

/-- C4 witness: an identify-only result for "Early Blight" on "Tomato"
with a total ENRICH failure still ends up with all eight enrichment
fields non-empty. -/
theorem analyze_merge_enrich_failure_backfills_witness :
    (validate_result (analyze_merge emptyEnrich "Tomato" "Early Blight" false none)).allTruthy :=
  analyze_merge_enrich_failure_backfills emptyEnrich "Tomato" "Early Blight" (by decide)

/-! ## Helper lemmas for `_parse_json` cleaning -/

/-- Any list starts with itself (plus whatever follows). -/
theorem startSeg_append (p r : PyStr) : startSeg p (p ++ r) = true := by
  induction p with
  | nil => rfl
  | cons a q ih => simp [startSeg, ih]

/-- Starting with a longer prefix implies starting with its front part. -/
theorem startSeg_append_left (p q : PyStr) : ∀ s, startSeg (p ++ q) s = true → startSeg p s = true := by
  induction p with
  | nil => intro s _; rfl
  | cons a p ih =>
    intro s h
    cases s with
    | nil => simp [startSeg] at h
    | cons b s' =>
      simp only [List.cons_append, startSeg, Bool.and_eq_true] at h ⊢
      exact ⟨h.1, ih s' h.2⟩

/-- The head surviving a `dropWhile` fails the predicate. -/
theorem dropWhile_head_false (q : ℕ → Bool) (l : PyStr) (a : ℕ) (m : PyStr)
    (h : List.dropWhile q l = a :: m) : q a = false := by
  induction l with
  | nil => simp at h
  | cons x xs ih =>
    rw [List.dropWhile_cons] at h
    split at h
    · exact ih h
    · next hx =>
      cases h
      simpa using hx

/-- The function `dropWhile` is idempotent. -/
theorem dropWhile_idem (q : ℕ → Bool) (l : PyStr) :
    List.dropWhile q (List.dropWhile q l) = List.dropWhile q l := by
  cases hd : List.dropWhile q l with
  | nil => rfl
  | cons a m =>
    rw [List.dropWhile_cons, dropWhile_head_false q l a m hd]
    simp

/-- A non-empty `dropWhile` keeps the last element of the list. -/
theorem dropWhile_getLast? (q : ℕ → Bool) (l : PyStr) (h : List.dropWhile q l ≠ []) :
    (List.dropWhile q l).getLast? = l.getLast? := by
  induction l with
  | nil => simp at h
  | cons x xs ih =>
    rw [List.dropWhile_cons] at h ⊢
    split
    · next hx =>
      rw [if_pos hx] at h
      rw [ih h]
      have hxs : xs ≠ [] := by
        intro hn
        rw [hn] at h
        exact h rfl
      obtain ⟨y, ys, rfl⟩ := List.exists_cons_of_ne_nil hxs
      simp [List.getLast?_cons_cons]
    · rfl

/-- Stripping a leading whitespace code point is absorbed by `pyStrip`. -/
theorem pyStrip_cons_space (a : ℕ) (l : PyStr) (h : isSpaceCp a = true) :
    pyStrip (a :: l) = pyStrip l := by
  unfold pyStrip
  rw [List.dropWhile_cons, if_pos h]

/-- Stripping a trailing whitespace code point is absorbed by `pyStrip`. -/
theorem pyStrip_append_space (b : ℕ) (l : PyStr) (h : isSpaceCp b = true) :
    pyStrip (l ++ [b]) = pyStrip l := by
  unfold pyStrip
  rw [List.dropWhile_append]
  split
  · next he =>
    rw [List.isEmpty_iff] at he
    rw [he]
    simp [List.dropWhile_cons, h, List.dropWhile_nil]
  · rw [List.reverse_append]
    simp only [List.reverse_cons, List.reverse_nil, List.nil_append, List.singleton_append]
    rw [List.dropWhile_cons, if_pos h]

/-- A list with non-whitespace first and last code points is untouched by
`pyStrip`. -/
theorem pyStrip_eq_self (a b : ℕ) (m : PyStr) (ha : isSpaceCp a = false)
    (hb : isSpaceCp b = false) : pyStrip (a :: (m ++ [b])) = a :: (m ++ [b]) := by
  unfold pyStrip
  rw [List.dropWhile_cons, if_neg (by simp [ha])]
  rw [show (a :: (m ++ [b])).reverse = b :: (m.reverse ++ [a]) by simp]
  rw [List.dropWhile_cons, if_neg (by simp [hb])]
  simp

/-- The function `pyStrip` is idempotent. -/
theorem pyStrip_idem (s : PyStr) : pyStrip (pyStrip s) = pyStrip s := by
  have hps : pyStrip s = (List.dropWhile isSpaceCp (List.dropWhile isSpaceCp s).reverse).reverse := rfl
  cases hB : List.dropWhile isSpaceCp (List.dropWhile isSpaceCp s).reverse with
  | nil =>
    rw [hps, hB]
    rfl
  | cons c m =>
    have hBne : List.dropWhile isSpaceCp (List.dropWhile isSpaceCp s).reverse ≠ [] := by
      rw [hB]; exact List.cons_ne_nil c m
    have hAne : List.dropWhile isSpaceCp s ≠ [] := by
      intro hn
      apply hBne
      rw [hn]
      rfl
    obtain ⟨a0, m0, hA⟩ := List.exists_cons_of_ne_nil hAne
    have ha0 : isSpaceCp a0 = false := dropWhile_head_false _ s a0 m0 hA
    -- the last element of the back-stripped list is the head of the
    -- front-stripped list, which fails the whitespace predicate
    have hlast : ((c :: m).reverse).head? = some a0 := by
      rw [List.head?_reverse]
      rw [← hB, dropWhile_getLast? _ _ hBne, List.getLast?_reverse, hA]
      rfl
    obtain ⟨n0, hn0⟩ : ∃ n0, (c :: m).reverse = a0 :: n0 := by
      cases hrev : (c :: m).reverse with
      | nil => rw [hrev] at hlast; simp at hlast
      | cons x xs =>
        rw [hrev] at hlast
        simp only [List.head?_cons, Option.some.injEq] at hlast
        exact ⟨xs, by rw [hlast]⟩
    have h1 : List.dropWhile isSpaceCp ((c :: m).reverse) = (c :: m).reverse := by
      rw [hn0, List.dropWhile_cons, if_neg (by simp [ha0])]
    have h2 : List.dropWhile isSpaceCp (c :: m) = c :: m := by
      rw [← hB, dropWhile_idem]
    rw [hps, hB]
    show (List.dropWhile isSpaceCp
      (List.dropWhile isSpaceCp (c :: m).reverse).reverse).reverse = (c :: m).reverse
    rw [h1, List.reverse_reverse, h2]

/-- The fenced wrapper is an append tree headed by the ```` ```json ````
fence. -/
theorem fenceWrap_eq (t : PyStr) :
    fenceWrap t = fenceJson ++ ([10] ++ (t ++ ([10] ++ fence))) := by
  simp [fenceWrap, List.append_assoc]

/-- The fenced wrapper starts and ends with backticks, so the outer strip
leaves it unchanged. -/
theorem pyStrip_fenceWrap (t : PyStr) : pyStrip (fenceWrap t) = fenceWrap t := by
  have hshape : fenceWrap t =
      96 :: (([96, 96, 106, 115, 111, 110, 10] ++ t ++ [10, 96, 96]) ++ [96]) := by
    have hfj : fenceJson = [96, 96, 96, 106, 115, 111, 110] := by decide
    have hfc : fence = [96, 96, 96] := by decide
    unfold fenceWrap
    rw [hfj, hfc]
    simp
  rw [hshape]
  exact pyStrip_eq_self 96 96 _ (by decide) (by decide)

/-- Cleaning the fenced wrapper yields exactly the stripped payload. -/
theorem cleanText_fenceWrap (t : PyStr) : cleanText (fenceWrap t) = pyStrip t := by
  have hfj : fenceJson = [96, 96, 96, 106, 115, 111, 110] := by decide
  have hfc : fence = [96, 96, 96] := by decide
  unfold cleanText
  rw [pyStrip_fenceWrap]
  have hsw : pyStartsWith (fenceWrap t) fenceJson = true := by
    unfold pyStartsWith
    rw [fenceWrap_eq]
    exact startSeg_append _ _
  have hstart : cleanStart (fenceWrap t) = [10] ++ (t ++ ([10] ++ fence)) := by
    unfold cleanStart
    rw [if_pos hsw, fenceWrap_eq]
    rw [show (7 : ℕ) = fenceJson.length by rw [hfj]; rfl, List.drop_left]
  rw [hstart]
  have hshape2 : ([10] ++ (t ++ ([10] ++ fence)) : PyStr) = ([10] ++ (t ++ [10])) ++ fence := by
    simp
  have hend : pyEndsWith ([10] ++ (t ++ ([10] ++ fence))) fence = true := by
    unfold pyEndsWith
    rw [hshape2, List.reverse_append]
    exact startSeg_append _ _
  have hcut : cleanEnd ([10] ++ (t ++ ([10] ++ fence))) = [10] ++ (t ++ [10]) := by
    unfold cleanEnd
    rw [if_pos hend, hshape2]
    have hlen : (([10] ++ (t ++ [10])) ++ fence : PyStr).length - 3 =
        ([10] ++ (t ++ [10]) : PyStr).length := by
      simp [hfc]
    rw [hlen, List.take_left]
  rw [hcut]
  rw [show ([10] ++ (t ++ [10]) : PyStr) = 10 :: (t ++ [10]) from rfl]
  rw [pyStrip_cons_space 10 _ (by decide), pyStrip_append_space 10 _ (by decide)]

/-- When the stripped payload neither starts nor ends with a backtick
fence, cleaning is just stripping. -/
theorem cleanText_unfenced (t : PyStr)
    (h1 : pyStartsWith (pyStrip t) fence = false)
    (h2 : pyEndsWith (pyStrip t) fence = false) :
    cleanText t = pyStrip t := by
  unfold cleanText
  have hfjf : pyStartsWith (pyStrip t) fenceJson = false := by
    cases hc : pyStartsWith (pyStrip t) fenceJson
    · rfl
    · exfalso
      unfold pyStartsWith at hc
      have hc' : startSeg (fence ++ cps "json") (pyStrip t) = true := by
        rw [show fence ++ cps "json" = fenceJson by decide]
        exact hc
      have h3 := startSeg_append_left fence (cps "json") (pyStrip t) hc'
      unfold pyStartsWith at h1
      rw [h1] at h3
      exact Bool.false_ne_true h3
  have hc1 : cleanStart (pyStrip t) = pyStrip t := by
    unfold cleanStart
    rw [hfjf, h1]
    simp
  have hc2 : cleanEnd (pyStrip t) = pyStrip t := by
    unfold cleanEnd
    rw [h2]
    simp
  rw [hc1, hc2, pyStrip_idem]

/-! ## Claim theorem for `_parse_json` fence invariance -/

/-- C7: for every payload `t` whose stripped form does not itself start
or end with a backtick fence (every well-formed JSON payload qualifies:
JSON text never starts or ends with a backtick), `_parse_json` applied to
`t` wrapped in markdown code fences returns the same result as
`_parse_json` applied to `t` directly — for every behaviour of the
underlying `json.loads`. -/
theorem parse_json_fence_invariant {J : Type} (loads : PyStr → Option J) (t : PyStr)
    (h1 : pyStartsWith (pyStrip t) fence = false)
    (h2 : pyEndsWith (pyStrip t) fence = false) :
    parse_json loads (fenceWrap t) = parse_json loads t := by
  unfold parse_json
  rw [cleanText_fenceWrap, cleanText_unfenced t h1 h2]

/-- C7 witness: the payload `[1, 2]` wrapped in ```` ```json ```` fences
parses identically to the bare payload, for a concrete `loads`. -/
theorem parse_json_fence_invariant_witness :
    parse_json (fun s => if s = cps "[1, 2]" then some 1 else none) (fenceWrap (cps "[1, 2]")) =
      parse_json (fun s => if s = cps "[1, 2]" then some 1 else none) (cps "[1, 2]") :=
  parse_json_fence_invariant (fun s => if s = cps "[1, 2]" then some 1 else none)
    (cps "[1, 2]") (by decide) (by decide)

end SmartyPlants
